import Mathlib

/-!
Verification development for the NYC Locker dashboard (`app.py`).

The dashboard loads a table of locker records, derives a marker ("bubble")
size from the locker-size text, filters rows by exact equality on five
columns, renders a map centred on the filtered rows, and renders a per-locker
event timeline after a map click.  The definitions below are a shallow
embedding of that pipeline:

* a pandas row becomes the structure `Row` (nullable text cells are
  `Option String`; the model assumes coordinates are present, as the map
  columns are non-null in the dataset);
* `filter_df` embeds the helper of the same name (sequential re-filtering
  over the five filter columns, skipping `None`/"All" selections);
* `bubbleSize` embeds the load-time derivation
  `df["Locker Size"].astype(str).str.extract(r'([SMLX]+)')[0].map(size_map).fillna(10)`;
* `collectEvents`/`renderRow`/`show_timeline_chart` embed the timeline
  callback, with `Except` modelling a raised exception
  (`pd.to_datetime` raises on an unparseable non-null string);
* `parseDate` models `pd.to_datetime` restricted to ISO `YYYY-MM-DD`
  input, the format of well-formed date cells; any other string is
  unparseable;
* `update_map` embeds the map callback's centering policy;
* `clear_all` embeds the reset callback.
-/

namespace Lockers

/-- A nullable text cell: `none` models a pandas NaN/null value. -/
abbrev Cell := Option String

/-- One row of the loaded dataset (`LockerNYC_Reservations.csv`). -/
structure Row where
  type : String
  locationType : String
  borough : String
  lockerSize : String
  status : String
  latitude : ℚ
  longitude : ℚ
  address : String
  lockerName : Option String
  deliveryDate : Cell
  receiveDate : Cell
  withdrawDate : Cell
  expireDate : Cell
deriving DecidableEq, Repr

/-- The dict `size_map = {"S": 14, "M": 22, "L": 32, "XL": 42}`: exact-key lookup,
`none` models a key that is absent from the dict (pandas `.map` gives NaN). -/
def size_map (s : String) : Option Nat :=
  if s = "S" then some 14
  else if s = "M" then some 22
  else if s = "L" then some 32
  else if s = "XL" then some 42
  else none

/-- The character class of the regex `[SMLX]`. -/
def isSMLX (c : Char) : Bool :=
  c = 'S' || c = 'M' || c = 'L' || c = 'X'

/-- The extraction `str.extract(r'([SMLX]+)')`: the first maximal run of characters drawn
from `{S, M, L, X}`, scanning left to right; `none` when no such character
occurs (pandas leaves NaN). -/
def extractRun : List Char → Option (List Char)
  | [] => none
  | c :: cs => if isSMLX c then some (c :: cs.takeWhile isSMLX) else extractRun cs

/-- The derived "Bubble Size" column for one locker-size string:
extract the first `[SMLX]+` run, map it through `size_map`, `fillna(10)`. -/
def bubbleSize (s : String) : Nat :=
  match extractRun s.toList with
  | none => 10
  | some run => (size_map (String.mk run)).getD 10

/-- The bubble-size rule as the specification words it: the LEADING run of
letters of the string is matched against the enumeration, anything else
gives the default 10.  Kept separate from `bubbleSize` (the code's rule)
so the two can be compared. -/
def bubbleSizeSpec (s : String) : Nat :=
  (size_map (String.mk (s.toList.takeWhile Char.isAlpha))).getD 10

/-- The amended bubble-size rule: the first maximal run of `{S, M, L, X}`
characters anywhere in the string (greedy, so "XL" is read whole), matched
exactly against the map's keys; no run, or a run that is not a key, gives 10. -/
def bubbleSizeAmended (s : String) : Nat :=
  let t := s.toList.dropWhile (fun c => !isSMLX c)
  let run := t.takeWhile isSMLX
  if run = [] then 10 else (size_map (String.mk run)).getD 10

/-- The five filterable columns, as accessors, in the order of
`filter_columns = ["Type", "Location Type", "Borough", "Locker Size", "Status"]`. -/
def filter_getters : List (Row → String) :=
  [Row.type, Row.locationType, Row.borough, Row.lockerSize, Row.status]

/-- Wildcard test: `v not in [None, "All"]` is false exactly when the selection is a wildcard. -/
def isWildcard (v : Option String) : Bool :=
  decide (v = none) || decide (v = some "All")

/-- The body of `filter_df`: successively re-filter the rows, one filter
column at a time, skipping wildcard selections.  `zip` mirrors
`zip(filter_columns, args)`. -/
def filter_df (args : List (Option String)) (rows : List Row) : List Row :=
  (filter_getters.zip args).foldl
    (fun dff cv =>
      if isWildcard cv.2 then dff
      else dff.filter (fun r => decide (some (cv.1 r) = cv.2)))
    rows

/-- A row satisfies the conjunction of per-column exact-equality predicates;
a wildcard selection imposes no constraint.  This is the specification's
reading of filtering, to be compared with `filter_df`. -/
def matchesAll (pairs : List ((Row → String) × Option String)) (r : Row) : Bool :=
  pairs.all (fun cv => isWildcard cv.2 || decide (some (cv.1 r) = cv.2))

/-- The reset callback `clear_all`: one "All" per filter column,
`["All"] * len(filter_columns)`. -/
def clear_all (_n_clicks : Nat) : List (Option String) :=
  List.replicate filter_getters.length (some "All")

/-- The `timeline_points` labels zipped against the row's four event cells, in source
order: Delivery, Receive, Withdraw, Expire. -/
def timeline_points (r : Row) : List (String × Cell) :=
  [("Delivery", r.deliveryDate), ("Receive", r.receiveDate),
   ("Withdraw", r.withdrawDate), ("Expire", r.expireDate)]

/-- The per-cell guard
`pd.notnull(dt) and str(dt).strip() and str(dt).lower() != "nan"`:
null, whitespace-only, and literal "nan" (any case) cells fail it. -/
def passesGuard (c : Cell) : Bool :=
  match c with
  | none => false
  | some s =>
    !(s.toList.all Char.isWhitespace) &&
      !decide (s.toList.map Char.toLower = "nan".toList)

/-- Models `pd.to_datetime` on the dataset's date strings: strict ISO
`YYYY-MM-DD`, encoded as the number `yyyy * 10000 + mm * 100 + dd` (ordered
exactly as the dates are); any other string fails to parse, which in the
code raises. -/
def parseDate (s : String) : Option Nat :=
  match s.toList with
  | [y1, y2, y3, y4, '-', m1, m2, '-', d1, d2] =>
    if [y1, y2, y3, y4, m1, m2, d1, d2].all Char.isDigit then
      some (((((y1.toNat - 48) * 10 + (y2.toNat - 48)) * 10 + (y3.toNat - 48)) * 10
               + (y4.toNat - 48)) * 10000
            + ((m1.toNat - 48) * 10 + (m2.toNat - 48)) * 100
            + ((d1.toNat - 48) * 10 + (d2.toNat - 48)))
    else none
  | _ => none

/-- The timeline-collection loop: for each of the four events, a cell failing
the guard is skipped; a cell passing the guard is parsed, and a parse failure
is the raised `pd.to_datetime` exception (`Except.error`). -/
def collectFrom : List (String × Cell) → Except String (List (String × Nat))
  | [] => Except.ok []
  | lc :: rest =>
    if passesGuard lc.2 then
      match parseDate (lc.2.getD "") with
      | none => Except.error "to_datetime: could not parse"
      | some d =>
        match collectFrom rest with
        | Except.error e => Except.error e
        | Except.ok tail => Except.ok ((lc.1, d) :: tail)
    else collectFrom rest

/-- The `timeline_data` list for a selected row. -/
def collectEvents (r : Row) : Except String (List (String × Nat)) :=
  collectFrom (timeline_points r)

/-- Stable insertion of one event into a date-sorted event list. -/
def insertEvent (x : String × Nat) : List (String × Nat) → List (String × Nat)
  | [] => [x]
  | y :: ys => if x.2 ≤ y.2 then x :: y :: ys else y :: insertEvent x ys

/-- The sort `timeline_data.sort(key=lambda x: x[1])`: a stable ascending sort by the
event date, as Python's stable `list.sort` performs. -/
def sortByDate (l : List (String × Nat)) : List (String × Nat) :=
  l.foldr insertEvent []

/-- What the timeline callback hands back to the page, stripped of styling:
the initial prompt, the lookup-failure text, the no-timeline placeholder
(with its header naming the locker), or a chart of dated events. -/
inductive TimelineOutput where
  | clickPrompt : TimelineOutput
  | noData : TimelineOutput
  | noTimeline (header : String) : TimelineOutput
  | chart (header : String) (events : List (String × Nat)) : TimelineOutput
deriving DecidableEq, Repr

/-- The chart/placeholder header:
`r["Locker Name"] if "Locker Name" in r and pd.notnull(r["Locker Name"]) else r["Address"]`. -/
def displayName (r : Row) : String :=
  match r.lockerName with
  | some n => n
  | none => r.address

/-- The tail of the timeline callback once a row is selected: collect the
events, demand at least two, sort and chart them. -/
def renderRow (r : Row) : Except String TimelineOutput :=
  match collectEvents r with
  | Except.error e => Except.error e
  | Except.ok evts =>
    if evts.length < 2 then Except.ok (TimelineOutput.noTimeline (displayName r))
    else Except.ok (TimelineOutput.chart (displayName r) (sortByDate evts))

/-- One clicked point of the plotly payload; `hovertext` is the address shown
on hover, `address` the (normally absent) "Address" key probed second. -/
structure Point where
  hovertext : Option String
  address : Option String
deriving DecidableEq, Repr

/-- The `clickData` payload: a dict holding a list of clicked points. -/
structure ClickData where
  points : List Point
deriving DecidableEq, Repr

/-- Python's `a or b` on optional strings: `None` and `""` are falsy. -/
def pyOr (a b : Option String) : Option String :=
  match a with
  | some s => if s = "" then b else some s
  | none => b

/-- The timeline callback `show_timeline_chart`: no payload or no points
gives the click prompt; otherwise the first point's address is looked up in
the filtered rows (`dff[dff["Address"] == addr]`, empty when the address is
`None` or matches nothing), and the first matching row is rendered. -/
def show_timeline_chart (clickData : Option ClickData) (args : List (Option String))
    (rows : List Row) : Except String TimelineOutput :=
  match clickData with
  | none => Except.ok TimelineOutput.clickPrompt
  | some cd =>
    match cd.points with
    | [] => Except.ok TimelineOutput.clickPrompt
    | p :: _ =>
      match (filter_df args rows).filter
          (fun r => decide (some r.address = pyOr p.hovertext p.address)) with
      | [] => Except.ok TimelineOutput.noData
      | r :: _ => renderRow r

/-- The map figure, stripped of styling: its centre and the plotted rows. -/
structure MapFigure where
  centerLat : ℚ
  centerLon : ℚ
  plotted : List Row
deriving DecidableEq, Repr

/-- Arithmetic mean of a list of rationals (`Series.mean`). -/
def listMean (xs : List ℚ) : ℚ := xs.sum / (xs.length : ℚ)

/-- The map callback `update_map`: centre at the filtered mean coordinates,
falling back to `(40.73, -73.98)` on an empty filtered set. -/
def update_map (args : List (Option String)) (rows : List Row) : MapFigure :=
  let dff := filter_df args rows
  { centerLat := if dff.isEmpty then 4073 / 100 else listMean (dff.map Row.latitude)
    centerLon := if dff.isEmpty then -7398 / 100 else listMean (dff.map Row.longitude)
    plotted := dff }

/-- A sample active XL locker whose four event dates are those of the
specification's timeline example. -/
def row1 : Row :=
  { type := "Package", locationType := "Sidewalk", borough := "Manhattan"
    lockerSize := "XL", status := "Active", latitude := 40, longitude := -74
    address := "100 Main St", lockerName := some "Locker A"
    deliveryDate := some "2024-03-01", receiveDate := some "2024-03-05"
    withdrawDate := some "2024-03-07", expireDate := some "2024-03-10" }

/-- A second sample locker, two degrees of latitude north of `row1`. -/
def row2 : Row :=
  { type := "Package", locationType := "Library", borough := "Queens"
    lockerSize := "M", status := "Retired", latitude := 42, longitude := -72
    address := "200 Oak Ave", lockerName := none
    deliveryDate := none, receiveDate := none
    withdrawDate := none, expireDate := none }

/-- A locker whose delivery cell is a present but unparseable string. -/
def rowBadDate : Row :=
  { type := "Package", locationType := "Sidewalk", borough := "Bronx"
    lockerSize := "S", status := "Active", latitude := 41, longitude := -73
    address := "7 Bad St", lockerName := none
    deliveryDate := some "notadate", receiveDate := none
    withdrawDate := none, expireDate := none }

/-- A locker with one null, one blank, one literal-"nan" and one parseable
event cell. -/
def rowMixed : Row :=
  { type := "Package", locationType := "Sidewalk", borough := "Brooklyn"
    lockerSize := "L", status := "Active", latitude := 40, longitude := -74
    address := "9 Mixed Rd", lockerName := some "Locker C"
    deliveryDate := none, receiveDate := some "  "
    withdrawDate := some "NaN", expireDate := some "2024-03-10" }

/-- A locker with exactly one valid event date. -/
def rowOne : Row :=
  { type := "Package", locationType := "Library", borough := "Manhattan"
    lockerSize := "M", status := "Active", latitude := 40, longitude := -74
    address := "1 Single Pl", lockerName := some "Locker B"
    deliveryDate := some "2024-01-01", receiveDate := none
    withdrawDate := none, expireDate := none }

/-- A locker with exactly one parseable event date and one present but
unparseable one. -/
def rowBad7 : Row :=
  { type := "Package", locationType := "Sidewalk", borough := "Queens"
    lockerSize := "L", status := "Active", latitude := 41, longitude := -73
    address := "77 Halt Ave", lockerName := some "Locker D"
    deliveryDate := some "2024-01-02", receiveDate := none
    withdrawDate := some "not a date", expireDate := none }

/-! ### Filter engine -/

lemma foldl_filter_eq (pairs : List ((Row → String) × Option String)) (rows : List Row) :
    pairs.foldl
      (fun dff cv =>
        if isWildcard cv.2 then dff
        else dff.filter (fun r => decide (some (cv.1 r) = cv.2)))
      rows = rows.filter (fun r => matchesAll pairs r) := by
  induction pairs generalizing rows with
  | nil => simp [matchesAll]
  | cons cv ps ih =>
    rw [List.foldl_cons, ih]
    cases hw : isWildcard cv.2 with
    | true =>
      simp only [hw, if_true]
      exact List.filter_congr (fun r _ => by simp [matchesAll, hw])
    | false =>
      simp only [hw, Bool.false_eq_true, if_false, List.filter_filter]
      exact List.filter_congr (fun r _ => by simp [matchesAll, hw, Bool.and_comm])

lemma filter_df_spec (args : List (Option String)) (rows : List Row) :
    filter_df args rows = rows.filter (fun r => matchesAll (filter_getters.zip args) r) :=
  foldl_filter_eq (filter_getters.zip args) rows

lemma filter_df_of_wildcards (args : List (Option String)) (rows : List Row)
    (h : ∀ v ∈ args, isWildcard v = true) : filter_df args rows = rows := by
  rw [filter_df_spec]
  apply List.filter_eq_self.mpr
  intro r _
  apply List.all_eq_true.mpr
  rintro ⟨g, v⟩ hgv
  simp [h v (List.of_mem_zip hgv).2]

/-- C1: for every filter-selection assignment, `filter_df` returns exactly the
rows satisfying the conjunction of per-column exact-equality predicates over
the five filterable columns, wildcard selections imposing no constraint. -/
theorem filter_df_conjunction (args : List (Option String)) (rows : List Row) :
    filter_df args rows = rows.filter (fun r => matchesAll (filter_getters.zip args) r) :=
  filter_df_spec args rows

/-- C8: filtering is idempotent — re-filtering an already-filtered set with
the same selections yields the same set. -/
theorem filter_df_idempotent (args : List (Option String)) (rows : List Row) :
    filter_df args (filter_df args rows) = filter_df args rows := by
  simp only [filter_df_spec]
  rw [List.filter_filter]
  exact List.filter_congr (fun r _ => Bool.and_self _)

/-- C9: the reset callback sets every one of the five filter selections to the
wildcard "All", and filtering with all selections at the wildcard returns the
full unfiltered dataset. -/
theorem clear_all_resets (n : Nat) (rows : List Row) :
    clear_all n = [some "All", some "All", some "All", some "All", some "All"] ∧
      filter_df (clear_all n) rows = rows := by
  refine ⟨rfl, filter_df_of_wildcards _ rows ?_⟩
  intro v hv
  rw [List.eq_of_mem_replicate (show v ∈ List.replicate filter_getters.length (some "All") from hv)]
  rfl

/-- C10: a `None` selection behaves exactly like the wildcard "All" — with
every selection `None` or "All", `filter_df` returns the full dataset. -/
theorem filter_df_wildcards_full (args : List (Option String)) (rows : List Row)
    (h : ∀ v ∈ args, v = none ∨ v = some "All") : filter_df args rows = rows := by
  apply filter_df_of_wildcards
  intro v hv
  rcases h v hv with rfl | rfl <;> rfl

/-- Witness for C10 at a concrete mixed `None`/"All" selection. -/
theorem filter_df_wildcards_full_witness :
    filter_df [none, some "All", none, some "All", some "All"] [row1, row2] = [row1, row2] :=
  filter_df_wildcards_full [none, some "All", none, some "All", some "All"] [row1, row2]
    (by decide)

/-! ### Bubble size -/

lemma extractRun_eq_dropWhile (l : List Char) :
    (match extractRun l with
     | none => 10
     | some run => (size_map (String.mk run)).getD 10) =
      (let t := l.dropWhile (fun c => !isSMLX c)
       let run := t.takeWhile isSMLX
       if run = [] then 10 else (size_map (String.mk run)).getD 10) := by
  induction l with
  | nil => rfl
  | cons c cs ih =>
    cases hc : isSMLX c with
    | true => simp [extractRun, hc, List.dropWhile_cons, List.takeWhile_cons]
    | false => simpa [extractRun, hc, List.dropWhile_cons] using ih

/-- Counterexample for C2: the locker-size string "aXL" has leading letter
run "aXL", which matches none of S, M, L, XL, so the claimed rule gives the
default 10 — but the code extracts the run "XL" from inside the string and
maps it to 42. -/
theorem bubbleSize_leading_run_cex :
    bubbleSize "aXL" = 42 ∧ bubbleSizeSpec "aXL" = 10 ∧
      bubbleSize "aXL" ≠ bubbleSizeSpec "aXL" :=
  ⟨rfl, rfl, by decide⟩

/-- C2 amended: the bubble size maps "S"/"M"/"L"/"XL" to 14/22/32/42 and
unmatched values (among them "unknown", "" and "X") to 10, and in general is
computed from the FIRST maximal run of `{S, M, L, X}` characters anywhere in
the string (greedy, so "XL" is never misread as "X"), not from the leading
run of letters. -/
theorem bubbleSize_first_run :
    bubbleSize "S" = 14 ∧ bubbleSize "M" = 22 ∧ bubbleSize "L" = 32 ∧
      bubbleSize "XL" = 42 ∧ bubbleSize "unknown" = 10 ∧ bubbleSize "" = 10 ∧
      bubbleSize "X" = 10 ∧ ∀ s : String, bubbleSize s = bubbleSizeAmended s := by
  refine ⟨rfl, rfl, rfl, rfl, rfl, rfl, rfl, fun s => ?_⟩
  exact extractRun_eq_dropWhile s.toList

/-! ### Timeline sorting -/

lemma insertEvent_perm (x : String × Nat) (l : List (String × Nat)) :
    (insertEvent x l).Perm (x :: l) := by
  induction l with
  | nil => exact List.Perm.refl _
  | cons y ys ih =>
    by_cases h : x.2 ≤ y.2
    · simp [insertEvent, h]
    · simp only [insertEvent, if_neg h]
      exact (ih.cons y).trans (List.Perm.swap x y ys)

lemma insertEvent_sorted (x : String × Nat) {l : List (String × Nat)}
    (h : l.Pairwise (fun a b => a.2 ≤ b.2)) :
    (insertEvent x l).Pairwise (fun a b => a.2 ≤ b.2) := by
  induction l with
  | nil => simp [insertEvent]
  | cons y ys ih =>
    obtain ⟨hy, hys⟩ := List.pairwise_cons.1 h
    by_cases hx : x.2 ≤ y.2
    · simp only [insertEvent, if_pos hx]
      refine List.pairwise_cons.2 ⟨?_, h⟩
      intro z hz
      rcases List.mem_cons.1 hz with rfl | hz
      · exact hx
      · exact le_trans hx (hy z hz)
    · simp only [insertEvent, if_neg hx]
      refine List.pairwise_cons.2 ⟨?_, ih hys⟩
      intro z hz
      rcases List.mem_cons.1 ((insertEvent_perm x ys).mem_iff.1 hz) with rfl | hz
      · exact le_of_not_le hx
      · exact hy z hz

lemma sortByDate_perm (l : List (String × Nat)) : (sortByDate l).Perm l := by
  induction l with
  | nil => exact List.Perm.refl _
  | cons x xs ih => exact (insertEvent_perm x (sortByDate xs)).trans (ih.cons x)

lemma sortByDate_sorted (l : List (String × Nat)) :
    (sortByDate l).Pairwise (fun a b => a.2 ≤ b.2) := by
  induction l with
  | nil => simp [sortByDate]
  | cons x xs ih => exact insertEvent_sorted x ih

/-- C4: whenever the timeline callback renders a chart, the listed events are
a permutation of the selected row's collected events sorted ascending by
timestamp — chronological order, not the fixed label order or insertion
order. -/
theorem show_timeline_sorted (cd : Option ClickData) (args : List (Option String))
    (rows : List Row) (hdr : String) (es : List (String × Nat))
    (h : show_timeline_chart cd args rows = Except.ok (TimelineOutput.chart hdr es)) :
    es.Pairwise (fun a b => a.2 ≤ b.2) ∧
      ∃ r evts, r ∈ filter_df args rows ∧
        collectEvents r = Except.ok evts ∧ es.Perm evts := by
  unfold show_timeline_chart renderRow at h
  split at h
  · simp at h
  · split at h
    · simp at h
    · rename_i p ps
      split at h
      · simp at h
      · rename_i r rest hf
        split at h
        · simp at h
        · rename_i evts hc
          split at h
          · simp at h
          · obtain ⟨hhdr, hes⟩ : displayName r = hdr ∧ sortByDate evts = es := by
              simpa using h
            refine ⟨hes ▸ sortByDate_sorted evts, r, evts, ?_, hc,
              hes ▸ sortByDate_perm evts⟩
            exact List.mem_of_mem_filter (hf.symm ▸ List.mem_cons_self r rest)

/-- Witness for C4 at the specification's example dates
(Delivery 2024-03-01, Receive 2024-03-05, Withdraw 2024-03-07,
Expire 2024-03-10): the rendered order is Delivery, Receive, Withdraw,
Expire. -/
theorem show_timeline_sorted_witness :
    ([("Delivery", 20240301), ("Receive", 20240305), ("Withdraw", 20240307),
        ("Expire", 20240310)] : List (String × Nat)).Pairwise (fun a b => a.2 ≤ b.2) ∧
      ∃ r evts, r ∈ filter_df [none, none, none, none, none] [row1] ∧
        collectEvents r = Except.ok evts ∧
        ([("Delivery", 20240301), ("Receive", 20240305), ("Withdraw", 20240307),
            ("Expire", 20240310)] : List (String × Nat)).Perm evts :=
  show_timeline_sorted (some ⟨[⟨some "100 Main St", none⟩]⟩)
    [none, none, none, none, none] [row1] "Locker A"
    [("Delivery", 20240301), ("Receive", 20240305), ("Withdraw", 20240307),
      ("Expire", 20240310)] rfl

/-- Counterexample for C7: this locker has exactly one present and parseable
event timestamp — fewer than two — yet the renderer raises the
`pd.to_datetime` error on its present unparseable withdraw date instead of
returning the "no timeline available" placeholder naming the locker. -/
theorem renderRow_unparseable_cex :
    ((timeline_points rowBad7).filter
        (fun lc => passesGuard lc.2 && (parseDate (lc.2.getD "")).isSome)).length < 2 ∧
      renderRow rowBad7 = Except.error "to_datetime: could not parse" ∧
      renderRow rowBad7 ≠ Except.ok (TimelineOutput.noTimeline (displayName rowBad7)) :=
  ⟨by decide, rfl, fun h => Except.noConfusion h⟩

/-- C7 amended: a selected row whose event collection completes without a
`pd.to_datetime` exception and yields fewer than two events renders the
"no timeline available" placeholder naming the locker, not a chart; a row
with a present unparseable timestamp raises instead. -/
theorem renderRow_noTimeline (r : Row) (evts : List (String × Nat))
    (hc : collectEvents r = Except.ok evts) (hlen : evts.length < 2) :
    renderRow r = Except.ok (TimelineOutput.noTimeline (displayName r)) := by
  unfold renderRow
  rw [hc]
  simp [hlen]

/-- Witness for C7: a locker with exactly one valid date gets the
placeholder, not a single-point chart. -/
theorem renderRow_noTimeline_witness :
    renderRow rowOne = Except.ok (TimelineOutput.noTimeline (displayName rowOne)) :=
  renderRow_noTimeline rowOne [("Delivery", 20240101)] rfl (by decide)

/-- Counterexample for C3: a click on address "nowhere", which matches no
filtered row, yields the "No data for this locker." placeholder — not the
"click a marker" prompt the claim names. -/
theorem show_timeline_notFound_cex :
    show_timeline_chart (some ⟨[⟨some "nowhere", none⟩]⟩)
        [none, none, none, none, none] [row1] = Except.ok TimelineOutput.noData ∧
      TimelineOutput.noData ≠ TimelineOutput.clickPrompt :=
  ⟨rfl, by decide⟩

/-- C3 amended: a click payload whose first point's address matches no row of
the currently filtered table degrades to the "No data for this locker."
placeholder without raising; a payload with no points yields the
"click a marker" prompt. -/
theorem show_timeline_notFound (args : List (Option String)) (rows : List Row)
    (p : Point) (ps : List Point)
    (hmiss : (filter_df args rows).filter
        (fun r => decide (some r.address = pyOr p.hovertext p.address)) = []) :
    show_timeline_chart (some ⟨p :: ps⟩) args rows = Except.ok TimelineOutput.noData ∧
      show_timeline_chart (some ⟨[]⟩) args rows = Except.ok TimelineOutput.clickPrompt := by
  constructor
  · unfold show_timeline_chart
    dsimp only
    rw [hmiss]
  · rfl

/-- Witness for C3 at a concrete stale address. -/
theorem show_timeline_notFound_witness :
    show_timeline_chart (some ⟨[⟨some "elsewhere", none⟩]⟩)
        [none, none, none, none, none] [row2] = Except.ok TimelineOutput.noData ∧
      show_timeline_chart (some ⟨[]⟩) [none, none, none, none, none] [row2]
        = Except.ok TimelineOutput.clickPrompt :=
  show_timeline_notFound [none, none, none, none, none] [row2]
    ⟨some "elsewhere", none⟩ [] rfl

/-- Counterexample for C6: a present but unparseable delivery date is not
silently omitted — collection stops with the raised `pd.to_datetime` error,
which propagates out of the timeline callback. -/
theorem show_timeline_raises_cex :
    collectEvents rowBadDate = Except.error "to_datetime: could not parse" ∧
      show_timeline_chart (some ⟨[⟨some "7 Bad St", none⟩]⟩)
          [none, none, none, none, none] [rowBadDate]
        = Except.error "to_datetime: could not parse" :=
  ⟨rfl, rfl⟩

lemma collectFrom_ok (l : List (String × Cell))
    (h : ∀ lc ∈ l, passesGuard lc.2 = true → (parseDate (lc.2.getD "")).isSome = true) :
    collectFrom l = Except.ok (l.filterMap (fun lc =>
      if passesGuard lc.2 then (parseDate (lc.2.getD "")).map (fun d => (lc.1, d))
      else none)) := by
  induction l with
  | nil => rfl
  | cons lc rest ih =>
    have hrest := fun x hx => h x (List.mem_cons_of_mem _ hx)
    cases hg : passesGuard lc.2 with
    | false => simp [collectFrom, hg, ih hrest, List.filterMap_cons]
    | true =>
      obtain ⟨d, hd⟩ := Option.isSome_iff_exists.1 (h lc (List.mem_cons_self _ _) hg)
      simp [collectFrom, hg, hd, ih hrest, List.filterMap_cons]

/-- C6 amended: an event timestamp that is missing (null), blank, or the
literal "nan" (any case) is silently omitted from the collected timeline
events; provided every timestamp passing that guard parses, collection
raises nothing and retains exactly the parseable events. -/
theorem collectEvents_omits (r : Row)
    (h : ∀ lc ∈ timeline_points r, passesGuard lc.2 = true →
      (parseDate (lc.2.getD "")).isSome = true) :
    collectEvents r = Except.ok ((timeline_points r).filterMap (fun lc =>
      if passesGuard lc.2 then (parseDate (lc.2.getD "")).map (fun d => (lc.1, d))
      else none)) :=
  collectFrom_ok (timeline_points r) h

/-- Witness for C6: a row with one null, one blank and one "NaN" cell keeps
only its single parseable event. -/
theorem collectEvents_omits_witness :
    collectEvents rowMixed = Except.ok [("Expire", 20240310)] :=
  (collectEvents_omits rowMixed (by decide)).trans rfl

/-- C5: the map centre is the arithmetic mean of the filtered rows'
latitudes and longitudes when the filtered set is non-empty, and the fixed
default (40.73, -73.98) when it is empty. -/
theorem update_map_center (args : List (Option String)) (rows : List Row) :
    (filter_df args rows = [] →
      (update_map args rows).centerLat = 4073 / 100 ∧
        (update_map args rows).centerLon = -7398 / 100) ∧
    (filter_df args rows ≠ [] →
      (update_map args rows).centerLat
          = ((filter_df args rows).map Row.latitude).sum
              / ((filter_df args rows).length : ℚ) ∧
        (update_map args rows).centerLon
          = ((filter_df args rows).map Row.longitude).sum
              / ((filter_df args rows).length : ℚ)) := by
  constructor
  · intro h
    simp [update_map, h]
  · intro h
    have hne : (filter_df args rows).isEmpty = false := by
      simpa [List.isEmpty_iff] using h
    simp [update_map, hne, listMean, List.length_map]

/-- Witness for C5: an empty filtered set falls back to the default centre;
the two sample rows centre at latitude (40 + 42) / 2 = 41. -/
theorem update_map_center_witness :
    (update_map [some "Nope", none, none, none, none] [row1]).centerLat = 4073 / 100 ∧
      (update_map [none, none, none, none, none] [row1, row2]).centerLat = 41 := by
  constructor
  · exact ((update_map_center [some "Nope", none, none, none, none] [row1]).1 rfl).1
  · have hfd : filter_df [none, none, none, none, none] [row1, row2] = [row1, row2] :=
      filter_df_of_wildcards _ _ (by decide)
    have h2 := ((update_map_center [none, none, none, none, none] [row1, row2]).2
      (by rw [hfd]; simp)).1
    rw [h2, hfd]
    simp only [row1, row2, List.map_cons, List.map_nil, List.sum_cons, List.sum_nil,
      List.length_cons, List.length_nil]
    norm_num

end Lockers
